import Mathlib

/-!
A shallow embedding of the otas-python-sdk capture-redact-dispatch pipeline
(`otas/middleware.py`, `otas/auth.py`), with theorems checking the
natural-language specification against the code.

Bytes are modelled as lists of naturals; Python dicts (which preserve
insertion order and have unique keys) as association lists; values that a
Python statement can raise are modelled with `Except`. `MAX_BODY_SIZE`
comes from `otas/constants.py`, which is not part of the provided sources;
it is carried as an explicit `maxBodySize` model parameter (the spec calls
it a fixed configured constant but gives no numeric value). Python string
JSON-encoding (`json.dumps`) of the captured dictionaries is represented by
the dictionaries themselves: the claims under study concern the captured
content, not its JSON spelling.
-/

namespace Otas

abbrev Bytes := List Nat

/-- Decoder state for incremental UTF-8 decoding: either between
sequences, or inside a multi-byte sequence with `need` continuation bytes
still expected, the acceptable range `lo..hi` for the next byte (the first
continuation's range depends on the lead byte: it excludes overlong
encodings, surrogates and code points above U+10FFFF, as Python's strict
UTF-8 ranges do), and the code point accumulated so far. -/
inductive Ustate where
  | idle
  | pending (need lo hi acc : Nat)
deriving DecidableEq

/-- Process one byte as the start of a sequence: ASCII emits a character,
a valid lead byte opens a pending sequence, anything else (a stray
continuation byte or an invalid lead) is dropped. -/
def stepLead (b : Nat) : Ustate × List Char :=
  if b < 0x80 then (.idle, [Char.ofNat b])
  else if 0xC2 ≤ b ∧ b ≤ 0xDF then (.pending 1 0x80 0xBF (b - 0xC0), [])
  else if b = 0xE0 then (.pending 2 0xA0 0xBF 0, [])
  else if b = 0xED then (.pending 2 0x80 0x9F (b - 0xE0), [])
  else if 0xE1 ≤ b ∧ b ≤ 0xEF then (.pending 2 0x80 0xBF (b - 0xE0), [])
  else if b = 0xF0 then (.pending 3 0x90 0xBF 0, [])
  else if b = 0xF4 then (.pending 3 0x80 0x8F (b - 0xF0), [])
  else if 0xF1 ≤ b ∧ b ≤ 0xF3 then (.pending 3 0x80 0xBF (b - 0xF0), [])
  else (.idle, [])

/-- Process one byte in a given state. Inside a pending sequence, an
in-range byte extends or finishes it; an out-of-range byte drops the
ill-formed prefix (CPython's maximal-subpart rule for `errors="ignore"`)
and the byte is reconsidered as a fresh lead. -/
def stepByte (st : Ustate) (b : Nat) : Ustate × List Char :=
  match st with
  | .idle => stepLead b
  | .pending need lo hi acc =>
    if lo ≤ b ∧ b ≤ hi then
      if need = 1 then (.idle, [Char.ofNat (0x40 * acc + (b - 0x80))])
      else (.pending (need - 1) 0x80 0xBF (0x40 * acc + (b - 0x80)), [])
    else stepLead b

/-- Run the decoder over the bytes; an unfinished sequence at end of input
is dropped, as `errors="ignore"` does. -/
def decodeLoop (st : Ustate) : Bytes → List Char
  | [] => []
  | b :: rest => (stepByte st b).2 ++ decodeLoop (stepByte st b).1 rest

/-- Python's `bytes.decode(errors="ignore")`: UTF-8 decoding that silently
drops ill-formed byte subsequences instead of raising. Total on every byte
input by construction. -/
def decodeIgnore (bs : Bytes) : List Char := decodeLoop .idle bs

/-- Substring containment, as Python's `needle in haystack` on strings. -/
def containsSub (hay needle : String) : Bool :=
  decide (needle.toList <:+: hay.toList)

/-- Python's `str.lower()`, character by character (ASCII case folding,
which is all the header names and content types under study use). -/
def pyLower (s : String) : String := String.mk (s.data.map Char.toLower)

/-- `OtasMiddleware.DEFAULT_SENSITIVE_HEADERS`. -/
def DEFAULT_SENSITIVE_HEADERS : List String :=
  ["authorization", "cookie", "set-cookie", "x-api-key", "proxy-authorization"]

/-- The resolved middleware configuration: the sensitive-header set (default
set unioned with the operator-supplied names), the maximum captured body
size from `otas/constants.py` (not in the provided sources, hence a
parameter), and the authenticated client's key and project id. -/
structure Config where
  sensitiveHeaders : List String
  maxBodySize : Nat
  sdkKey : String
  projectId : Option String

/-- `OtasMiddleware._truncate`: `body[:MAX_BODY_SIZE] if len(body) > MAX_BODY_SIZE else body`. -/
def _truncate (maxBody : Nat) (body : Bytes) : Bytes :=
  if body.length > maxBody then body.take maxBody else body

/-- `OtasMiddleware._should_capture_body`: `None` and the empty string are
falsy (`if not content_type`); otherwise lower-case and reject content types
containing `multipart/form-data` or `application/octet-stream`. -/
def _should_capture_body (contentType : Option String) : Bool :=
  match contentType with
  | none => false
  | some ct =>
    if ct = "" then false
    else
      let lowered := pyLower ct
      if containsSub lowered "multipart/form-data" then false
      else if containsSub lowered "application/octet-stream" then false
      else true

/-- `OtasMiddleware._redact_headers`: builds a fresh dict, inserting
`"[REDACTED]"` for keys whose lower-cased name is in the sensitive set and
the original value otherwise. -/
def _redact_headers (sensitive : List String) (headers : List (String × String)) :
    List (String × String) :=
  headers.foldl
    (fun redacted kv =>
      redacted ++ [(kv.1, if sensitive.contains (pyLower kv.1) then "[REDACTED]" else kv.2)])
    []

/-- The read-access view of a Django `HttpRequest` that the middleware
uses: `request.content_type` (`str | None`), the outcome of touching
`request.body` (which can raise), `request.GET`, `request.POST`, and
`request.META`. -/
structure Request where
  method : String
  path : String
  contentType : Option String
  bodyRead : Except Unit Bytes
  queryParams : List (String × List String)
  postData : List (String × List String)
  meta : List (String × String)

/-- The read-access view of the response object: status code, header items,
whether it is a `StreamingHttpResponse`, and `response.content` for
buffered responses. -/
structure Response where
  statusCode : Nat
  headers : List (String × String)
  streaming : Bool
  content : Bytes
deriving DecidableEq

/-- The dict returned by `OtasMiddleware._capture_request`. -/
structure RequestData where
  method : String
  path : String
  query_params : List (String × List String)
  post_data : List (String × List String)
  request_headers : List (String × String)
  request_body : String
  request_size_bytes : Nat
  request_content_type : Option String
  agent_session_token : String
deriving DecidableEq

/-- The dict returned by `OtasMiddleware._capture_response`. -/
structure ResponseData where
  status_code : Nat
  response_headers : List (String × String)
  response_body : String
  response_size_bytes : Nat
  response_content_type : Option String
deriving DecidableEq

/-- `request.META.get(key, default)`. -/
def metaGet (meta : List (String × String)) (k d : String) : String :=
  match meta.lookup k with
  | some v => v
  | none => d

/-- `OtasMiddleware._extract_request_headers`: keep `META` keys starting
with `HTTP_`, strip that marker, turn underscores into dashes, lower-case,
then redact. (Python's `str.replace` replaces every occurrence; so does
`String.replace`.) -/
def _extract_request_headers (sensitive : List String) (meta : List (String × String)) :
    List (String × String) :=
  _redact_headers sensitive
    ((meta.filter (fun kv => kv.1.startsWith "HTTP_")).map
      (fun kv => (pyLower ((kv.1.replace "HTTP_" "").replace "_" "-"), kv.2)))

/-- The raw request body the code ends up with before truncation
(`middleware.py` lines 107-114): empty unless the content type passes
`_should_capture_body`, and empty again when reading `request.body`
raises (`except Exception: pass`). -/
def requestRawBody (req : Request) : Bytes :=
  if _should_capture_body req.contentType then
    match req.bodyRead with
    | .ok b => b
    | .error _ => []
  else []

/-- `OtasMiddleware._capture_request`. -/
def _capture_request (cfg : Config) (req : Request) : RequestData :=
  let body := _truncate cfg.maxBodySize (requestRawBody req)
  let agent_session_token := metaGet req.meta "HTTP_X_OTAS_AGENT_SESSION_TOKEN" ""
  let headers := _extract_request_headers cfg.sensitiveHeaders req.meta
  { method := req.method
    path := req.path
    query_params := req.queryParams
    post_data := req.postData
    request_headers := headers
    request_body := String.mk (decodeIgnore body)
    request_size_bytes := body.length
    request_content_type := req.contentType
    agent_session_token := agent_session_token }

/-- The sentinel bytes `b"[STREAMING_RESPONSE]"`. -/
def STREAM_SENTINEL : Bytes := "[STREAMING_RESPONSE]".toList.map Char.toNat

/-- The raw response body before truncation (`middleware.py` lines
137-143): the sentinel for a `StreamingHttpResponse`, `response.content`
otherwise. -/
def responseRawBody (resp : Response) : Bytes :=
  if resp.streaming then STREAM_SENTINEL else resp.content

/-- `OtasMiddleware._capture_response`. -/
def _capture_response (cfg : Config) (resp : Response) : ResponseData :=
  let body := _truncate cfg.maxBodySize (responseRawBody resp)
  let headers := _redact_headers cfg.sensitiveHeaders resp.headers
  { status_code := resp.statusCode
    response_headers := headers
    response_body := String.mk (decodeIgnore body)
    response_size_bytes := body.length
    response_content_type := headers.lookup "Content-Type" }

/-- An exception object, by its type name and message; `reprExc` is
Python's `repr` of it, e.g. `ValueError('boom')`. -/
structure Exc where
  ty : String
  msg : String
deriving DecidableEq

def reprExc (e : Exc) : String := e.ty ++ "('" ++ e.msg ++ "')"

/-- Python's `x or ""` applied to the optional error string in
`_build_payload`. -/
def orEmpty (s : Option String) : String :=
  match s with
  | some v => if v = "" then "" else v
  | none => ""

/-- The event payload dict built by `OtasMiddleware._build_payload`. -/
structure Payload where
  project_id : Option String
  path : String
  method : String
  status_code : Nat
  latency_ms : Nat
  request_size_bytes : Nat
  response_size_bytes : Nat
  request_headers : List (String × String)
  request_body : String
  query_params : List (String × List String)
  post_data : List (String × List String)
  response_headers : List (String × String)
  response_body : String
  request_content_type : Option String
  response_content_type : Option String
  custom_properties : List (String × String)
  error : String
  metadata : List (String × String)
  agent_session_token : String
deriving DecidableEq

/-- `OtasMiddleware._build_payload`. -/
def _build_payload (cfg : Config) (request_data : RequestData)
    (response_data : ResponseData) (latency_ms : Nat) (error : Option String) : Payload :=
  { project_id := cfg.projectId
    path := request_data.path
    method := request_data.method
    status_code := response_data.status_code
    latency_ms := latency_ms
    request_size_bytes := request_data.request_size_bytes
    response_size_bytes := response_data.response_size_bytes
    request_headers := request_data.request_headers
    request_body := request_data.request_body
    query_params := request_data.query_params
    post_data := request_data.post_data
    response_headers := response_data.response_headers
    response_body := response_data.response_body
    request_content_type := request_data.request_content_type
    response_content_type := response_data.response_content_type
    custom_properties := []
    error := orEmpty error
    metadata := []
    agent_session_token := request_data.agent_session_token }

/-- What happened on the outbound `requests.post` to the collector: either
some exception was raised inside the `try` block (connection error,
timeout, serialization failure, ...) or a response with a status code and
text came back. -/
inductive PostOutcome where
  | raisedExc (msg : String)
  | resp (status : Nat) (text : String)

/-- `try/except Exception` around a block whose value is an `Except`. -/
def tryCatch (body : Except String α) (handler : String → α) : α :=
  match body with
  | .ok a => a
  | .error e => handler e

/-- The headers `_send_to_otas` builds for the collector call, including
the conditional agent-session-token header. -/
def sendHeaders (sdkKey token : String) : List (String × String) :=
  let hs := [("Content-Type", "application/json"), ("X-OTAS-SDK-KEY", sdkKey)]
  if token ≠ "" then hs ++ [("X-OTAS-AGENT-SESSION-TOKEN", token)] else hs

/-- The `try` block of `OtasMiddleware._send_to_otas`: pop the token,
build the headers, POST; log a warning on a status `>= 400`; any raised
exception escapes this block as `.error`. The value is the list of log
messages emitted. -/
def _send_to_otas_body (sdkKey : String) (payload : Payload) (net : PostOutcome) :
    Except String (List String) :=
  let token := payload.agent_session_token
  let _headers := sendHeaders sdkKey token
  match net with
  | .raisedExc m => .error m
  | .resp status text =>
    .ok (if 400 ≤ status then
        ["[OTAS] Failed to send event (" ++ toString status ++ "): " ++ text]
      else [])

/-- `OtasMiddleware._send_to_otas`: the `try` block wrapped in
`except Exception`, which logs and returns. Total: it returns a plain list
of log messages for every outcome of the outbound call. -/
def _send_to_otas (sdkKey : String) (payload : Payload) (net : PostOutcome) : List String :=
  tryCatch (_send_to_otas_body sdkKey payload net)
    (fun exc => ["[OTAS] Error sending event: " ++ exc])

/-- What one pass through `OtasMiddleware.__call__` produces: the payload
it dispatched, the response handed back to the caller, the final value of
the thread-local exception slot, and the dispatcher's log output. -/
structure CallResult where
  payload : Payload
  response : Response
  finalSlot : Option Exc
  logs : List String
deriving DecidableEq

/-- `OtasMiddleware.__call__` for one request on one unit of concurrency.
`slot` is the thread-local `_local.exception` value left over before this
request; `raised` is the exception (if any) the downstream handler raised,
which Django's `got_request_exception` signal writes into the slot via
`_on_exception` during `get_response`; `net` is the outcome of the
outbound collector call. -/
def middlewareCall (cfg : Config) (slot : Option Exc) (req : Request) (resp : Response)
    (raised : Option Exc) (latency_ms : Nat) (net : PostOutcome) : CallResult :=
  let request_data := _capture_request cfg req
  let slotReset : Option Exc := none
  let slotAfter : Option Exc :=
    match raised with
    | some e => some e
    | none => slotReset
  let response_data := _capture_response cfg resp
  let captured := slotAfter
  let response_data :=
    match captured with
    | some _ => { response_data with response_body := "", response_size_bytes := 0 }
    | none => response_data
  let payload := _build_payload cfg request_data response_data latency_ms
    (captured.map reprExc)
  let logs := _send_to_otas cfg.sdkKey payload net
  { payload := payload, response := resp, finalSlot := slotAfter, logs := logs }

/-! ### `otas/auth.py` -/

/-- A JSON value, as `response.json()` can return it. Numeric values are
modelled as integers (the authentication status flag is an integer). -/
inductive Json where
  | jnull
  | jbool (b : Bool)
  | jnum (n : Int)
  | jstr (s : String)
  | jarr (elems : List Json)
  | jobj (fields : List (String × Json))

/-- The Python exceptions `authenticate` can raise: the SDK's own
`OtasAuthenticationError`, the parse error from `response.json()` on a
malformed body, and `AttributeError` from calling `.get` on a non-dict. -/
inductive PyError where
  | otasAuthError (msg : String)
  | jsonDecodeError (msg : String)
  | attributeError (msg : String)
deriving DecidableEq

/-- The `requests.Response` view `authenticate` needs: transport status
code and the outcome of `response.json()`. -/
structure HttpResponse where
  status : Nat
  jsonBody : Except String Json

/-- The dict `authenticate` returns on success. -/
structure AuthResult where
  project_id : Option Json
  project_name : Option Json
  project_description : Option Json
  sdk_key : String

/-- Python `d.get(k)` on a JSON value: `None` when the key is missing,
`AttributeError` when the value is not a dict. -/
def dictGet (j : Json) (k : String) : Except PyError (Option Json) :=
  match j with
  | .jobj fields => .ok (fields.lookup k)
  | _ => .error (.attributeError "object has no attribute get")

/-- Python `d.get(k, default)`. -/
def dictGetD (j : Json) (k : String) (d : Json) : Except PyError Json :=
  (dictGet j k).map (fun o => o.getD d)

/-- Python `x != 1` on the value of `data.get("status")`: `True == 1` in
Python, so a boolean `true` also counts as the success sentinel. -/
def pyEqOne (j : Option Json) : Bool :=
  match j with
  | some (.jnum 1) => true
  | some (.jbool true) => true
  | _ => false

/-- How an f-string renders a JSON value (used for
`status_description`). -/
def jsonToDisplay (j : Json) : String :=
  match j with
  | .jnull => "None"
  | .jbool b => if b then "True" else "False"
  | .jnum n => toString n
  | .jstr s => s
  | .jarr _ => "[...]"
  | .jobj _ => "\x7b...\x7d"

/-- `otas/auth.py authenticate(sdk_key)`. The single network call is an
input: either a transport-level failure (`requests.RequestException`) or
an `HttpResponse`. The `try` block covers only `requests.post` and
`response.raise_for_status()`, which raises `HTTPError` exactly for the
client- and server-error ranges `400 <= status < 600` (a nonstandard
status outside that range passes through and the code proceeds to parse
the body); both raises are wrapped as `OtasAuthenticationError`.
`data = response.json()` sits outside the `try`, so a malformed body
escapes as a raw parse error. -/
def authenticate (sdk_key : String) (net : Except String HttpResponse) :
    Except PyError AuthResult := do
  let response ← match net with
    | .error e =>
      Except.error (.otasAuthError ("Failed to reach OTAS authentication endpoint: " ++ e))
    | .ok r =>
      if 400 ≤ r.status ∧ r.status < 600 then
        Except.error (.otasAuthError
          ("Failed to reach OTAS authentication endpoint: HTTP " ++ toString r.status))
      else Except.ok r
  let data ← match response.jsonBody with
    | .error e => Except.error (PyError.jsonDecodeError e)
    | .ok d => Except.ok d
  let st ← dictGet data "status"
  if ¬ pyEqOne st then
    let descr ← dictGetD data "status_description" (.jstr "unknown error")
    Except.error (.otasAuthError ("OTAS authentication failed: " ++ jsonToDisplay descr))
  else
    let respField ← dictGetD data "response" (.jobj [])
    let project ← dictGetD respField "project" (.jobj [])
    let pid ← dictGet project "id"
    let pname ← dictGet project "name"
    let pdesc ← dictGet project "description"
    Except.ok { project_id := pid, project_name := pname,
                project_description := pdesc, sdk_key := sdk_key }

/-- Whether a call result is a raised `OtasAuthenticationError`. -/
def raisesAuthError (r : Except PyError AuthResult) : Bool :=
  match r with
  | .error (.otasAuthError _) => true
  | _ => false

/-- Whether a call result is any raised exception. -/
def raisesError (r : Except PyError AuthResult) : Bool :=
  match r with
  | .error _ => true
  | .ok _ => false

/-! ### Helper lemmas -/

theorem redact_foldl (S : List String) (H : List (String × String))
    (acc : List (String × String)) :
    H.foldl
      (fun redacted kv =>
        redacted ++ [(kv.1, if S.contains (pyLower kv.1) then "[REDACTED]" else kv.2)])
      acc
      = acc ++ H.map
          (fun kv => (kv.1, if S.contains (pyLower kv.1) then "[REDACTED]" else kv.2)) := by
  induction H generalizing acc with
  | nil => simp
  | cons a t ih =>
    rw [List.foldl_cons, ih]
    simp

theorem redact_eq_map (S : List String) (H : List (String × String)) :
    _redact_headers S H
      = H.map (fun kv => (kv.1, if S.contains (pyLower kv.1) then "[REDACTED]" else kv.2)) := by
  unfold _redact_headers
  simpa using redact_foldl S H []

theorem truncate_length (M : Nat) (B : Bytes) :
    (_truncate M B).length = min B.length M := by
  by_cases h : B.length > M
  · simp only [_truncate, if_pos h, List.length_take]
    omega
  · simp only [_truncate, if_neg h]
    omega

theorem truncate_of_le (M : Nat) (B : Bytes) (h : B.length ≤ M) :
    _truncate M B = B := by
  unfold _truncate
  rw [if_neg (by omega)]

theorem truncate_isPre (M : Nat) (B : Bytes) : _truncate M B <+: B := by
  unfold _truncate
  split
  · exact ⟨B.drop M, List.take_append_drop M B⟩
  · exact ⟨[], by simp⟩

theorem stepLead_out_le (b : Nat) : (stepLead b).2.length ≤ 1 := by
  unfold stepLead
  repeat' split
  all_goals simp

theorem stepByte_out_le (st : Ustate) (b : Nat) : (stepByte st b).2.length ≤ 1 := by
  unfold stepByte
  cases st with
  | idle => exact stepLead_out_le b
  | pending need lo hi acc =>
    repeat' split
    all_goals first
      | simp
      | exact stepLead_out_le b

theorem decodeLoop_length_le (st : Ustate) (bs : Bytes) :
    (decodeLoop st bs).length ≤ bs.length := by
  induction bs generalizing st with
  | nil => simp [decodeLoop]
  | cons b rest ih =>
    have h1 := stepByte_out_le st b
    have h2 := ih (stepByte st b).1
    simp only [decodeLoop, List.length_append, List.length_cons]
    omega

theorem decodeIgnore_length_le (bs : Bytes) : (decodeIgnore bs).length ≤ bs.length :=
  decodeLoop_length_le .idle bs

/-! ### Concrete fixtures -/

/-- A configuration with a small body bound, to exercise truncation. -/
def cfg5 : Config :=
  { sensitiveHeaders := DEFAULT_SENSITIVE_HEADERS, maxBodySize := 5,
    sdkKey := "k", projectId := some "p" }

/-- A configuration with a roomy body bound. -/
def cfg100 : Config :=
  { sensitiveHeaders := DEFAULT_SENSITIVE_HEADERS, maxBodySize := 100,
    sdkKey := "k", projectId := some "p" }

/-- A JSON request whose 6-byte body exceeds `cfg5`'s bound. -/
def reqOversize : Request :=
  { method := "POST", path := "/x", contentType := some "application/json",
    bodyRead := .ok [97, 98, 99, 100, 101, 102],
    queryParams := [], postData := [], meta := [] }

/-- A request whose 1-byte body is the lone undecodable byte `0xFF`. -/
def reqBadByte : Request :=
  { method := "GET", path := "/y", contentType := some "application/json",
    bodyRead := .ok [255], queryParams := [], postData := [], meta := [] }

/-- A multipart upload request with a non-empty body. -/
def reqMultipart : Request :=
  { method := "POST", path := "/up",
    contentType := some "multipart/form-data; boundary=xYz",
    bodyRead := .ok [1, 2, 3], queryParams := [], postData := [], meta := [] }

/-- A request whose body read raises. -/
def reqReadFails : Request :=
  { method := "POST", path := "/z", contentType := some "text/plain",
    bodyRead := .error (), queryParams := [], postData := [], meta := [] }

/-- A streaming response carrying (unread) stream content. -/
def respStream : Response :=
  { statusCode := 200, headers := [("Content-Type", "text/event-stream")],
    streaming := true, content := [] }

/-- An ordinary buffered response. -/
def respPlain : Response :=
  { statusCode := 200, headers := [("Content-Type", "application/json")],
    streaming := false, content := [123, 125] }

/-- A concrete payload, for exercising the dispatcher. -/
def payloadW : Payload :=
  _build_payload cfg100 (_capture_request cfg100 reqOversize)
    (_capture_response cfg100 respPlain) 3 none

theorem reprExc_ne_empty (e : Exc) : reprExc e ≠ "" := by
  intro h
  have hlen := congrArg String.length h
  have h2 : ("('" : String).length = 2 := by decide
  have h3 : ("')" : String).length = 2 := by decide
  simp [reprExc, String.length_append, h2, h3] at hlen

theorem except_bind_ok (a : α) (f : α → Except ε β) :
    (Except.ok a >>= f) = f a := rfl

theorem except_bind_error (e : ε) (f : α → Except ε β) :
    ((Except.error e : Except ε α) >>= f) = Except.error e := rfl

/-! ### Claim theorems -/

/-- C2: for every header map `H` and sensitive-name set `S`, redaction
yields a map with exactly the keys of `H` (same order), where every key
whose lower-cased name is in `S` gets the fixed mask token `"[REDACTED]"`
and every other key keeps a value identical to its value in `H`. -/
theorem redact_keys_and_values (S : List String) (H : List (String × String)) :
    (_redact_headers S H).map Prod.fst = H.map Prod.fst ∧
    List.Forall₂
      (fun kv kv' : String × String =>
        kv'.1 = kv.1 ∧
        kv'.2 = if S.contains (pyLower kv.1) then "[REDACTED]" else kv.2)
      H (_redact_headers S H) := by
  constructor
  · rw [redact_eq_map]
    simp
  · rw [redact_eq_map, List.forall₂_map_right_iff, List.forall₂_same]
    intro kv _
    exact ⟨rfl, rfl⟩

/-- C5: for every byte sequence `B` and maximum `M`, the truncated body
has length `min (len B) M`, is a prefix of `B`, and is `B` itself whenever
`len B ≤ M`. -/
theorem truncate_contract (M : Nat) (B : Bytes) :
    (_truncate M B).length = min B.length M ∧
    _truncate M B <+: B ∧
    (B.length ≤ M → _truncate M B = B) :=
  ⟨truncate_length M B, truncate_isPre M B, truncate_of_le M B⟩

/-- Witness for C5 at a concrete input with the hypothesis discharged. -/
theorem truncate_contract_witness :
    _truncate 5 [1, 2, 3] = [1, 2, 3] :=
  (truncate_contract 5 [1, 2, 3]).2.2 (by decide)

/-- C3 counterexample: with bound 5 and a 6-byte JSON request body, the
recorded `request_size_bytes` is the post-truncation length 5, not the
pre-truncation length 6 — `len(body)` is computed only after
`self._truncate(body)` has replaced `body`. -/
theorem size_not_pre_truncation :
    ¬ ((_capture_request cfg5 reqOversize).request_size_bytes
        = (requestRawBody reqOversize).length) := by
  decide

/-- C3 as amended: the recorded size fields equal the length of the
stored, truncated body, `min (raw length) maxBodySize` — the
pre-truncation size is not recorded anywhere. -/
theorem size_is_post_truncation (cfg : Config) (req : Request) (resp : Response) :
    (_capture_request cfg req).request_size_bytes
      = min (requestRawBody req).length cfg.maxBodySize ∧
    (_capture_response cfg resp).response_size_bytes
      = min (responseRawBody resp).length cfg.maxBodySize :=
  ⟨truncate_length cfg.maxBodySize (requestRawBody req),
   truncate_length cfg.maxBodySize (responseRawBody resp)⟩

/-- C1: the dispatch operation returns normally for every outcome of the
outbound send — an exception raised inside the `try` block only produces a
log entry via `except Exception`, a non-success collector status only
produces a warning log, a success status produces nothing — and the
response handed back to the middleware's caller is the downstream response,
untouched, whatever the outcome was. -/
theorem dispatch_swallows_failures (cfg : Config) (slot : Option Exc) (req : Request)
    (resp : Response) (raised : Option Exc) (lat : Nat) (net : PostOutcome)
    (sdkKey : String) (payload : Payload) :
    (middlewareCall cfg slot req resp raised lat net).response = resp ∧
    (∀ m, _send_to_otas sdkKey payload (.raisedExc m)
        = ["[OTAS] Error sending event: " ++ m]) ∧
    (∀ s t, 400 ≤ s → _send_to_otas sdkKey payload (.resp s t)
        = ["[OTAS] Failed to send event (" ++ toString s ++ "): " ++ t]) ∧
    (∀ s t, s < 400 → _send_to_otas sdkKey payload (.resp s t) = []) := by
  refine ⟨rfl, fun m => rfl, fun s t h => ?_, fun s t h => ?_⟩
  · simp [_send_to_otas, _send_to_otas_body, tryCatch, if_pos h]
  · simp [_send_to_otas, _send_to_otas_body, tryCatch, if_neg (by omega : ¬ 400 ≤ s)]

/-- Witness for C1: concrete dispatch outcomes, hypotheses discharged. -/
theorem dispatch_swallows_failures_witness :
    _send_to_otas "k" payloadW (.resp 500 "oops")
      = ["[OTAS] Failed to send event (500): oops"] ∧
    _send_to_otas "k" payloadW (.resp 200 "ok") = [] :=
  ⟨(dispatch_swallows_failures cfg100 none reqOversize respPlain none 0
      (.resp 200 "") "k" payloadW).2.2.1 500 "oops" (by decide),
   (dispatch_swallows_failures cfg100 none reqOversize respPlain none 0
      (.resp 200 "") "k" payloadW).2.2.2 200 "ok" (by decide)⟩

/-- C4: when the downstream handler raised (exception captured via the
signal), the event has a non-empty `error`, an empty `response_body` and
`response_size_bytes = 0`, whatever the framework's converted response
contained; when nothing was captured, `error` is the empty string and the
captured response body and size pass through unmodified. -/
theorem error_overrides_response_fields (cfg : Config) (slot : Option Exc)
    (req : Request) (resp : Response) (lat : Nat) (net : PostOutcome) (e : Exc) :
    ((middlewareCall cfg slot req resp (some e) lat net).payload.error ≠ "" ∧
     (middlewareCall cfg slot req resp (some e) lat net).payload.response_body = "" ∧
     (middlewareCall cfg slot req resp (some e) lat net).payload.response_size_bytes = 0) ∧
    ((middlewareCall cfg slot req resp none lat net).payload.error = "" ∧
     (middlewareCall cfg slot req resp none lat net).payload.response_body
        = (_capture_response cfg resp).response_body ∧
     (middlewareCall cfg slot req resp none lat net).payload.response_size_bytes
        = (_capture_response cfg resp).response_size_bytes) := by
  refine ⟨⟨?_, rfl, rfl⟩, rfl, rfl, rfl⟩
  have hv := reprExc_ne_empty e
  show orEmpty (some (reprExc e)) ≠ ""
  simp [orEmpty, hv]

/-- C6: the body-capture gate refuses a missing content type, an empty
content type, and any content type containing `multipart/form-data` or
`application/octet-stream` (case-insensitively); a refused gate stores an
empty body of size 0; an allowed gate stores the decoded, bounded bytes,
and a failing body read degrades to the empty body instead of an error. -/
theorem body_capture_skip_rules :
    _should_capture_body none = false ∧
    _should_capture_body (some "") = false ∧
    (∀ ct : String, containsSub (pyLower ct) "multipart/form-data" = true →
      _should_capture_body (some ct) = false) ∧
    (∀ ct : String, containsSub (pyLower ct) "application/octet-stream" = true →
      _should_capture_body (some ct) = false) ∧
    (∀ cfg req, _should_capture_body req.contentType = false →
      (_capture_request cfg req).request_body = "" ∧
      (_capture_request cfg req).request_size_bytes = 0) ∧
    (∀ cfg req, _should_capture_body req.contentType = true → req.bodyRead = .error () →
      (_capture_request cfg req).request_body = "" ∧
      (_capture_request cfg req).request_size_bytes = 0) ∧
    (∀ cfg req bs, _should_capture_body req.contentType = true → req.bodyRead = .ok bs →
      (_capture_request cfg req).request_body
        = String.mk (decodeIgnore (_truncate cfg.maxBodySize bs))) := by
  refine ⟨rfl, rfl, fun ct h => ?_, fun ct h => ?_, fun cfg req h => ?_,
    fun cfg req h herr => ?_, fun cfg req bs h hok => ?_⟩
  · simp [_should_capture_body, h]
  · simp [_should_capture_body, h]
  · have hb : requestRawBody req = [] := by simp [requestRawBody, h]
    constructor
    · show String.mk (decodeIgnore (_truncate cfg.maxBodySize (requestRawBody req))) = ""
      rw [hb, truncate_of_le _ _ (by simp)]
      rfl
    · show (_truncate cfg.maxBodySize (requestRawBody req)).length = 0
      rw [hb, truncate_of_le _ _ (by simp)]
      rfl
  · have hb : requestRawBody req = [] := by simp [requestRawBody, h, herr]
    constructor
    · show String.mk (decodeIgnore (_truncate cfg.maxBodySize (requestRawBody req))) = ""
      rw [hb, truncate_of_le _ _ (by simp)]
      rfl
    · show (_truncate cfg.maxBodySize (requestRawBody req)).length = 0
      rw [hb, truncate_of_le _ _ (by simp)]
      rfl
  · have hb : requestRawBody req = bs := by simp [requestRawBody, h, hok]
    show String.mk (decodeIgnore (_truncate cfg.maxBodySize (requestRawBody req))) = _
    rw [hb]

/-- Witness for C6: the skip rules and failure degradation at concrete
requests, hypotheses discharged. -/
theorem body_capture_skip_rules_witness :
    _should_capture_body (some "multipart/form-data; boundary=xYz") = false ∧
    (_capture_request cfg100 reqMultipart).request_body = "" ∧
    (_capture_request cfg100 reqReadFails).request_body = "" ∧
    (_capture_request cfg100 reqBadByte).request_body
      = String.mk (decodeIgnore (_truncate cfg100.maxBodySize [255])) :=
  ⟨body_capture_skip_rules.2.2.1 "multipart/form-data; boundary=xYz" (by decide),
   (body_capture_skip_rules.2.2.2.2.1 cfg100 reqMultipart (by decide)).1,
   (body_capture_skip_rules.2.2.2.2.2.1 cfg100 reqReadFails (by decide) rfl).1,
   body_capture_skip_rules.2.2.2.2.2.2 cfg100 reqBadByte [255] (by decide) rfl⟩

/-- C7: for every streaming response the captured body is exactly the
sentinel marker (the stream is not read: the result does not depend on the
stream content), and `response_size_bytes` is the sentinel's length, 20 —
provided the configured body bound admits the 20-byte sentinel. -/
theorem streaming_sentinel_body (cfg : Config) (resp : Response)
    (hs : resp.streaming = true) (hM : 20 ≤ cfg.maxBodySize) :
    (_capture_response cfg resp).response_body = "[STREAMING_RESPONSE]" ∧
    (_capture_response cfg resp).response_size_bytes = STREAM_SENTINEL.length ∧
    (_capture_response cfg resp).response_size_bytes = 20 := by
  have hraw : responseRawBody resp = STREAM_SENTINEL := by
    simp [responseRawBody, hs]
  have hlen : STREAM_SENTINEL.length = 20 := by decide
  have htr : _truncate cfg.maxBodySize STREAM_SENTINEL = STREAM_SENTINEL :=
    truncate_of_le _ _ (by rw [hlen]; exact hM)
  refine ⟨?_, ?_, ?_⟩
  · show String.mk (decodeIgnore (_truncate cfg.maxBodySize (responseRawBody resp))) = _
    rw [hraw, htr]
    decide
  · show (_truncate cfg.maxBodySize (responseRawBody resp)).length = _
    rw [hraw, htr]
  · show (_truncate cfg.maxBodySize (responseRawBody resp)).length = 20
    rw [hraw, htr, hlen]

/-- Witness for C7 at a concrete streaming response. -/
theorem streaming_sentinel_body_witness :
    (_capture_response cfg100 respStream).response_body = "[STREAMING_RESPONSE]" ∧
    (_capture_response cfg100 respStream).response_size_bytes = 20 :=
  ⟨(streaming_sentinel_body cfg100 respStream rfl (by decide)).1,
   (streaming_sentinel_body cfg100 respStream rfl (by decide)).2.2⟩

/-- C8: the per-request slot is reset before downstream handling, so one
pass through the middleware is entirely independent of whatever the
thread-local exception slot held before it; and a following request on the
same unit of concurrency whose handler does not raise reports `error = ""`
even when the previous request raised. -/
theorem exception_slot_reset_no_leakage (cfg : Config) (slot slot' : Option Exc)
    (req : Request) (resp : Response) (raised : Option Exc) (lat : Nat)
    (net : PostOutcome) (reqB : Request) (respB : Response) (latB : Nat)
    (netB : PostOutcome) :
    middlewareCall cfg slot req resp raised lat net
      = middlewareCall cfg slot' req resp raised lat net ∧
    (middlewareCall cfg (middlewareCall cfg slot req resp raised lat net).finalSlot
        reqB respB none latB netB).payload.error = "" :=
  ⟨rfl, rfl⟩

/-- C10: the stored body strings are the `errors="ignore"` UTF-8 decoding
of the truncated bytes (a total function: the decoder drops undecodable
bytes instead of raising), the decoding never yields more characters than
bytes, and at a concrete 1-byte undecodable body that is far below the
bound (so no truncation occurred) the stored string is `""`, strictly
shorter than the recorded size 1. -/
theorem stored_body_is_ignore_decoding :
    (∀ cfg req, (_capture_request cfg req).request_body
        = String.mk (decodeIgnore (_truncate cfg.maxBodySize (requestRawBody req)))) ∧
    (∀ cfg resp, resp.streaming = false →
      (_capture_response cfg resp).response_body
        = String.mk (decodeIgnore (_truncate cfg.maxBodySize resp.content))) ∧
    (∀ bs : Bytes, (decodeIgnore bs).length ≤ bs.length) ∧
    ((_capture_request cfg100 reqBadByte).request_size_bytes = 1 ∧
     (requestRawBody reqBadByte).length ≤ cfg100.maxBodySize ∧
     (_capture_request cfg100 reqBadByte).request_body = "" ∧
     (_capture_request cfg100 reqBadByte).request_body.length
        < (_capture_request cfg100 reqBadByte).request_size_bytes) := by
  refine ⟨fun cfg req => rfl, fun cfg resp h => ?_, decodeIgnore_length_le, by decide⟩
  have hraw : responseRawBody resp = resp.content := by
    simp [responseRawBody, h]
  show String.mk (decodeIgnore (_truncate cfg.maxBodySize (responseRawBody resp))) = _
  rw [hraw]

/-- Witness for C10 at a concrete buffered response. -/
theorem stored_body_is_ignore_decoding_witness :
    (_capture_response cfg100 respPlain).response_body
      = String.mk (decodeIgnore (_truncate cfg100.maxBodySize [123, 125])) :=
  stored_body_is_ignore_decoding.2.1 cfg100 respPlain rfl

/-- A transport-successful authentication response whose body is not valid
JSON. -/
def malformedNet : Except String HttpResponse :=
  .ok { status := 200, jsonBody := .error "Expecting value: line 1 column 1 (char 0)" }

/-- C9 counterexample: on a malformed response body, `authenticate` does
raise — but what escapes is the raw parse failure, not an `AuthError`:
`data = response.json()` sits outside the `try` block that wraps only the
network call and `raise_for_status`. -/
theorem auth_parse_failure_unwrapped :
    raisesError (authenticate "otas_key" malformedNet) = true ∧
    raisesAuthError (authenticate "otas_key" malformedNet) = false :=
  ⟨rfl, rfl⟩

/-- C9 as amended: transport failure and a non-success application status
are surfaced as `AuthError` (the latter carrying the server-provided
description), but a malformed response body propagates as the raw,
unwrapped parse failure; on success, missing nested project fields become
null rather than errors. `raise_for_status` raises exactly for statuses
`400..599`, so a status outside that range (including a nonstandard one
`>= 600`) proceeds to body parsing and can succeed. -/
theorem authenticate_error_modes (k : String) :
    (∀ e, authenticate k (.error e)
        = .error (.otasAuthError ("Failed to reach OTAS authentication endpoint: " ++ e))) ∧
    (∀ r : HttpResponse, 400 ≤ r.status → r.status < 600 →
      authenticate k (.ok r)
        = .error (.otasAuthError
            ("Failed to reach OTAS authentication endpoint: HTTP " ++ toString r.status))) ∧
    (∀ (r : HttpResponse) (e : String), r.status < 400 ∨ 600 ≤ r.status →
      r.jsonBody = .error e →
      authenticate k (.ok r) = .error (.jsonDecodeError e)) ∧
    (∀ s d, s < 400 ∨ 600 ≤ s →
      authenticate k
          (.ok ⟨s, .ok (.jobj [("status", .jnum 0), ("status_description", .jstr d)])⟩)
        = .error (.otasAuthError ("OTAS authentication failed: " ++ d))) ∧
    (∀ s, s < 400 ∨ 600 ≤ s →
      authenticate k (.ok ⟨s, .ok (.jobj [("status", .jnum 1)])⟩)
        = .ok { project_id := none, project_name := none,
                project_description := none, sdk_key := k }) := by
  refine ⟨fun e => rfl, fun r h1 h2 => ?_, fun r e hst hjson => ?_,
    fun s d h => ?_, fun s h => ?_⟩
  · simp [authenticate, if_pos (And.intro h1 h2), except_bind_error]
  · have hn : ¬ (400 ≤ r.status ∧ r.status < 600) := by omega
    simp [authenticate, hn, hjson, except_bind_ok, except_bind_error]
  · simp [authenticate, if_neg (by omega : ¬ (400 ≤ s ∧ s < 600)), dictGet, dictGetD,
      pyEqOne, jsonToDisplay, except_bind_ok, except_bind_error, List.lookup,
      Option.getD, Except.map]
  · simp [authenticate, if_neg (by omega : ¬ (400 ≤ s ∧ s < 600)), dictGet, dictGetD,
      pyEqOne, except_bind_ok, except_bind_error, List.lookup, Option.getD,
      Except.map]

/-- Witness for C9's amended theorem at concrete inputs, hypotheses
discharged — including a nonstandard status 700 response that
`raise_for_status` lets through and that authenticates successfully. -/
theorem authenticate_error_modes_witness :
    authenticate "k" (.ok ⟨500, .ok .jnull⟩)
      = .error (.otasAuthError "Failed to reach OTAS authentication endpoint: HTTP 500") ∧
    authenticate "k" (.ok ⟨200, .error "bad json"⟩)
      = .error (.jsonDecodeError "bad json") ∧
    authenticate "k" (.ok ⟨200, .ok (.jobj [("status", .jnum 0),
        ("status_description", .jstr "bad key")])⟩)
      = .error (.otasAuthError "OTAS authentication failed: bad key") ∧
    authenticate "k" (.ok ⟨200, .ok (.jobj [("status", .jnum 1)])⟩)
      = .ok { project_id := none, project_name := none,
              project_description := none, sdk_key := "k" } ∧
    authenticate "k" (.ok ⟨700, .ok (.jobj [("status", .jnum 1)])⟩)
      = .ok { project_id := none, project_name := none,
              project_description := none, sdk_key := "k" } :=
  ⟨(authenticate_error_modes "k").2.1 ⟨500, .ok .jnull⟩ (by decide) (by decide),
   (authenticate_error_modes "k").2.2.1 ⟨200, .error "bad json"⟩ "bad json"
     (Or.inl (by decide)) rfl,
   (authenticate_error_modes "k").2.2.2.1 200 "bad key" (Or.inl (by decide)),
   (authenticate_error_modes "k").2.2.2.2 200 (Or.inl (by decide)),
   (authenticate_error_modes "k").2.2.2.2 700 (Or.inr (by decide))⟩

end Otas
